import Mathlib

/-!
Verification of the metrics-aggregation and health-scoring logic of the
multi-store retail analytics dashboard.  Python sources are embedded
shallowly: floats become exact rationals `ℚ`, pandas frames become lists
of records, and `None`/`NaN` become `Option`.
-/

/-- `min(max(x, 0), 100)` — the clamping applied to every score in
`generate_business_health_data` (src/data_generator.py). -/
def clamp01_100 (x : ℚ) : ℚ := min (max x 0) 100

/-- A row of the `business_health` frame built in
`generate_business_health_data` (src/data_generator.py): per store and
date, the four sub-scores, the weighted overall health, and the alert
list.  All score fields are stored clamped to [0, 100]. -/
structure BusinessHealthRecord where
  store : String
  date : ℤ
  overall_health : ℚ
  theft_score : ℚ
  rewards_score : ℚ
  traffic_score : ℚ
  employee_score : ℚ
  alerts : List String
  deriving Repr, DecidableEq

/-- The alert accumulation of `generate_business_health_data`
(src/data_generator.py lines 360-369): four independent `if` appends on
the raw (pre-clamp) sub-scores, in source order. -/
def healthAlerts (t r tr e : ℚ) : List String :=
  (if t < 50 then ["High theft incidents"] else []) ++
  (if r < 50 then ["Low rewards program performance"] else []) ++
  (if tr < 40 then ["Concerning drop in store traffic"] else []) ++
  (if e < 45 then ["Excessive employee mobile usage"] else [])

/-- One record appended by `generate_business_health_data`
(src/data_generator.py lines 370-380), parameterised by the raw random
sub-score draws `t r tr e` (theft, rewards, traffic, employee).  The
overall score combines the raw draws with weights 0.25/0.25/0.3/0.2 and
is clamped afterwards; each stored sub-score is clamped separately. -/
def mkHealthRecord (store : String) (date : ℤ) (t r tr e : ℚ) :
    BusinessHealthRecord :=
  { store := store
    date := date
    overall_health := clamp01_100 (0.25 * t + 0.25 * r + 0.3 * tr + 0.2 * e)
    theft_score := clamp01_100 t
    rewards_score := clamp01_100 r
    traffic_score := clamp01_100 tr
    employee_score := clamp01_100 e
    alerts := healthAlerts t r tr e }

/-- A record carrying a store name and a date (or timestamp), the shape
consumed by `get_filtered_theft_data` (src/components/theft_analytics.py)
and `get_filtered_rewards_data` (src/components/rewards_analytics.py);
dates are modelled as integers (day numbers). -/
structure SRecord where
  store : String
  date : ℤ
  deriving Repr, DecidableEq

/-- The store filter of `get_filtered_theft_data` /
`get_filtered_rewards_data`: `if st.session_state.selected_stores:` —
an empty selection (falsy) skips the filter, otherwise keep rows whose
store is in the selection. -/
def filterByStores (sel : List String) (rs : List SRecord) : List SRecord :=
  if sel.isEmpty then rs else rs.filter (fun r => sel.contains r.store)

/-- The date filter of the same functions: `if st.session_state.date_range:`
— when a range `(start, end)` is present keep rows with
`start ≤ date ≤ end` (inclusive on both ends), otherwise no filter. -/
def filterByDateRange (dr : Option (ℤ × ℤ)) (rs : List SRecord) :
    List SRecord :=
  match dr with
  | none => rs
  | some (s, e) => rs.filter (fun r => s ≤ r.date ∧ r.date ≤ e)

/-- `get_filtered_theft_data` / `get_filtered_rewards_data`: store filter
then date filter. -/
def getFilteredData (sel : List String) (dr : Option (ℤ × ℤ))
    (rs : List SRecord) : List SRecord :=
  filterByDateRange dr (filterByStores sel rs)

lemma clamp01_100_mem (x : ℚ) : 0 ≤ clamp01_100 x ∧ clamp01_100 x ≤ 100 := by
  unfold clamp01_100
  constructor
  · exact le_min (le_max_right x 0) (by norm_num)
  · exact min_le_right _ _

/-- `clamp01_100 x < c ↔ x < c` for any threshold strictly between
0 and 100 (the alert thresholds 40, 45, 50 all qualify). -/
lemma clamp01_100_lt_iff (x c : ℚ) (h0 : 0 < c) (h1 : c ≤ 100) :
    clamp01_100 x < c ↔ x < c := by
  unfold clamp01_100
  rcases le_or_lt x 0 with hx | hx
  · simp only [max_eq_right hx]
    constructor
    · intro _; linarith
    · intro _
      calc min 0 100 ≤ 0 := min_le_left _ _
        _ < c := h0
  · rw [max_eq_left hx.le]
    rcases le_or_lt x 100 with hx100 | hx100
    · rw [min_eq_left hx100]
    · rw [min_eq_right hx100.le]
      constructor
      · intro h; linarith
      · intro h; linarith

/-- C1: every generated BusinessHealthRecord has all five scores in
[0, 100], and its overall_health is the clamp of the fixed weighted
combination 0.25/0.25/0.30/0.20 of the raw sub-score draws (the
combination is formed before any clamping, and the clamp to [0,100] is
applied to the combined value afterwards). -/
theorem C1_health_scores_bounded_and_weighted (store : String) (date : ℤ)
    (t r tr e : ℚ) (b : BusinessHealthRecord)
    (hb : b = mkHealthRecord store date t r tr e) :
    (0 ≤ b.overall_health ∧ b.overall_health ≤ 100) ∧
    (0 ≤ b.theft_score ∧ b.theft_score ≤ 100) ∧
    (0 ≤ b.rewards_score ∧ b.rewards_score ≤ 100) ∧
    (0 ≤ b.traffic_score ∧ b.traffic_score ≤ 100) ∧
    (0 ≤ b.employee_score ∧ b.employee_score ≤ 100) ∧
    b.overall_health =
      clamp01_100 (0.25 * t + 0.25 * r + 0.3 * tr + 0.2 * e) := by
  subst hb
  refine ⟨clamp01_100_mem _, clamp01_100_mem _, clamp01_100_mem _,
    clamp01_100_mem _, clamp01_100_mem _, rfl⟩

/-- C1 witness: the record generated from raw draws (80, 60, 55, 120):
the raw employee draw 120 exceeds 100 and is clamped in the stored
field, while the overall score combines the raw values. -/
theorem C1_health_scores_bounded_and_weighted_witness :
    mkHealthRecord "Downtown Mart" 0 80 60 55 120 =
      mkHealthRecord "Downtown Mart" 0 80 60 55 120 ∧
    (0 ≤ (mkHealthRecord "Downtown Mart" 0 80 60 55 120).overall_health ∧
      (mkHealthRecord "Downtown Mart" 0 80 60 55 120).overall_health ≤
        100) := by
  exact ⟨rfl, (C1_health_scores_bounded_and_weighted "Downtown Mart" 0
    80 60 55 120 _ rfl).1⟩

/-- C4: a record's alert list contains each alert text exactly when the
corresponding stored sub-score is below its threshold (50/50/40/45), and
the four alerts accumulate independently. -/
theorem C4_alert_thresholds (store : String) (date : ℤ) (t r tr e : ℚ)
    (b : BusinessHealthRecord)
    (hb : b = mkHealthRecord store date t r tr e) :
    ("High theft incidents" ∈ b.alerts ↔ b.theft_score < 50) ∧
    ("Low rewards program performance" ∈ b.alerts ↔
      b.rewards_score < 50) ∧
    ("Concerning drop in store traffic" ∈ b.alerts ↔
      b.traffic_score < 40) ∧
    ("Excessive employee mobile usage" ∈ b.alerts ↔
      b.employee_score < 45) := by
  subst hb
  show ("High theft incidents" ∈ healthAlerts t r tr e ↔
      clamp01_100 t < 50) ∧
    ("Low rewards program performance" ∈ healthAlerts t r tr e ↔
      clamp01_100 r < 50) ∧
    ("Concerning drop in store traffic" ∈ healthAlerts t r tr e ↔
      clamp01_100 tr < 40) ∧
    ("Excessive employee mobile usage" ∈ healthAlerts t r tr e ↔
      clamp01_100 e < 45)
  rw [clamp01_100_lt_iff t 50 (by norm_num) (by norm_num),
      clamp01_100_lt_iff r 50 (by norm_num) (by norm_num),
      clamp01_100_lt_iff tr 40 (by norm_num) (by norm_num),
      clamp01_100_lt_iff e 45 (by norm_num) (by norm_num)]
  unfold healthAlerts
  split_ifs with h1 h2 h3 h4 <;>
    simp_all [List.mem_append, List.mem_singleton]

/-- C4 witness: raw draws (45, 60, 55, 70) trigger exactly the theft
alert. -/
theorem C4_alert_thresholds_witness :
    ("High theft incidents" ∈
        (mkHealthRecord "Downtown Mart" 0 45 60 55 70).alerts ↔
      (mkHealthRecord "Downtown Mart" 0 45 60 55 70).theft_score < 50) := by
  exact (C4_alert_thresholds "Downtown Mart" 0 45 60 55 70 _ rfl).1

/-- C2: filtering by a store set covering every record together with a
date interval covering every record date returns the input unchanged;
filtering by an empty store set is "no filter" (with a covering date
interval, or with no date range, the input is returned unchanged); and
any filter result is a sublist of the input, so surviving records keep
their original relative order. -/
theorem C2_filter_identity_and_stability (sel : List String)
    (s e : ℤ) (rs : List SRecord)
    (hstore : ∀ r ∈ rs, r.store ∈ sel)
    (hdate : ∀ r ∈ rs, s ≤ r.date ∧ r.date ≤ e) :
    getFilteredData sel (some (s, e)) rs = rs ∧
    getFilteredData [] (some (s, e)) rs = rs ∧
    getFilteredData [] none rs = rs ∧
    (∀ (sel2 : List String) (dr : Option (ℤ × ℤ)),
      (getFilteredData sel2 dr rs).Sublist rs) := by
  have hdatefilter : ∀ (l : List SRecord), (∀ r ∈ l, s ≤ r.date ∧ r.date ≤ e) →
      filterByDateRange (some (s, e)) l = l := by
    intro l hl
    unfold filterByDateRange
    apply List.filter_eq_self.mpr
    intro r hr
    exact decide_eq_true (hl r hr)
  constructor
  · have hs : filterByStores sel rs = rs := by
      unfold filterByStores
      split
      · rfl
      · apply List.filter_eq_self.mpr
        intro r hr
        simpa using hstore r hr
    unfold getFilteredData
    rw [hs]
    exact hdatefilter rs hdate
  constructor
  · unfold getFilteredData filterByStores
    simp only [List.isEmpty_nil, if_true]
    exact hdatefilter rs hdate
  constructor
  · rfl
  · intro sel2 dr
    unfold getFilteredData filterByStores filterByDateRange
    have hsub1 : (if sel2.isEmpty then rs
        else rs.filter (fun r => sel2.contains r.store)).Sublist rs := by
      split
      · exact List.Sublist.refl rs
      · exact List.filter_sublist rs
    match dr with
    | none => exact hsub1
    | some (a, b) =>
        exact List.Sublist.trans (List.filter_sublist _) hsub1

/-- C2 witness: a concrete two-record set, a covering store set and a
covering date interval. -/
theorem C2_filter_identity_and_stability_witness :
    (∀ r ∈ [SRecord.mk "A" 1, SRecord.mk "B" 2],
      r.store ∈ ["A", "B"]) ∧
    (∀ r ∈ [SRecord.mk "A" 1, SRecord.mk "B" 2],
      (0 : ℤ) ≤ r.date ∧ r.date ≤ 10) ∧
    getFilteredData ["A", "B"] (some (0, 10))
      [SRecord.mk "A" 1, SRecord.mk "B" 2] =
      [SRecord.mk "A" 1, SRecord.mk "B" 2] := by
  refine ⟨by decide, by decide, ?_⟩
  exact (C2_filter_identity_and_stability ["A", "B"] 0 10
    [SRecord.mk "A" 1, SRecord.mk "B" 2] (by decide) (by decide)).1

/-- The canonical `day_order` list used by every heatmap
(src/components/theft_analytics.py, employee_analytics.py,
traffic_analytics.py). -/
def dayOrder : List String :=
  ["Monday", "Tuesday", "Wednesday", "Thursday", "Friday", "Saturday",
   "Sunday"]

/-- A theft record as seen by `show_heatmap_analysis`
(src/components/theft_analytics.py) after the two `dt` lines derive
`day_of_week` and `hour` from the timestamp. -/
structure HourRecord where
  day_of_week : String
  hour : ℕ
  deriving Repr, DecidableEq

/-- A mobile-usage pattern row as consumed by `show_heatmap_analysis`
(src/components/employee_analytics.py). -/
structure UsageRecord where
  day_of_week : String
  hour : ℕ
  mobile_usage_incidents : ℚ
  deriving Repr, DecidableEq

/-- The theft heatmap pivot (src/components/theft_analytics.py lines
310-333): `groupby(['day_of_week','hour']).size()`, `pivot`, `reindex
(day_order)`, `fillna(0)`, adding every missing hour column as 0, and
sorting columns — i.e. a complete 7 × 24 incident-count table. -/
def theftPivot (rs : List HourRecord) : List (String × List ℕ) :=
  dayOrder.map (fun d => (d, (List.range 24).map (fun h =>
    (rs.filter (fun p => p.day_of_week == d && p.hour == h)).length)))

/-- The employee heatmap pivot (src/components/employee_analytics.py
lines 408-428): `pivot_table(index='day_of_week', columns='hour',
values='mobile_usage_incidents', aggfunc='mean').reindex(day_order)`,
then adding every missing hour column as 0 and sorting columns.  There
is no `fillna(0)`: a day/hour pair absent from the input whose hour
column does exist stays NaN, modelled as `none`; a wholly absent hour
column is added as the constant 0. -/
def employeePivot (us : List UsageRecord) : List (String × List (Option ℚ)) :=
  dayOrder.map (fun d => (d, (List.range 24).map (fun h =>
    if (us.filter (fun p => p.hour == h)).isEmpty then some 0
    else
      let cell := us.filter (fun p => p.day_of_week == d && p.hour == h)
      if cell.isEmpty then none
      else some ((cell.map (fun p => p.mobile_usage_incidents)).sum /
        cell.length))))

lemma getD_map_range {α : Type} (n : ℕ) (g : ℕ → α) (h : ℕ) (hh : h < n)
    (d : α) : ((List.range n).map g).getD h d = g h := by
  rw [List.getD_eq_getElem?_getD, List.getElem?_map, List.getElem?_range hh]
  rfl

/-- C3 counterexample: on the one-record input `("Monday", hour 0,
5 incidents)` the employee heatmap pivot leaves the Tuesday / hour-0
cell null (`none`) instead of filling it with 0 — the `fillna(0)` step
present in the theft pivot is missing there. -/
theorem C3_employee_pivot_null_counterexample :
    ([UsageRecord.mk "Monday" 0 5] : List UsageRecord) ≠ [] ∧
    ((employeePivot [UsageRecord.mk "Monday" 0 5]).getD 1
      ("", [])).1 = "Tuesday" ∧
    ((employeePivot [UsageRecord.mk "Monday" 0 5]).getD 1
      ("", [])).2.getD 0 (some 0) = none := by
  refine ⟨by decide, by decide, by decide⟩

/-- C3 (amended): for any non-empty input both heatmap pivots have
exactly 7 rows labelled Monday…Sunday in canonical order and 24 columns
0…23; the theft pivot's cell at `(day, hour)` is the incident count for
that pair, so every combination absent from the input is 0; the
employee pivot zero-fills only hour columns absent from the whole
input, while a day/hour pair missing from an hour column that is
present elsewhere stays null. -/
theorem C3_pivot_shape_and_fill (rs : List HourRecord)
    (us : List UsageRecord) (hrs : rs ≠ []) (hus : us ≠ []) :
    (theftPivot rs).map Prod.fst = dayOrder ∧
    (∀ row ∈ theftPivot rs, row.2.length = 24) ∧
    (∀ row ∈ theftPivot rs, ∀ h : ℕ, h < 24 →
      row.2.getD h 0 =
        (rs.filter (fun p => p.day_of_week == row.1 && p.hour == h)).length) ∧
    (∀ row ∈ theftPivot rs, ∀ h : ℕ, h < 24 →
      (rs.filter (fun p => p.day_of_week == row.1 && p.hour == h)) = [] →
      row.2.getD h 0 = 0) ∧
    (employeePivot us).map Prod.fst = dayOrder ∧
    (∀ row ∈ employeePivot us, row.2.length = 24) ∧
    (∀ row ∈ employeePivot us, ∀ h : ℕ, h < 24 →
      (us.filter (fun p => p.hour == h)).isEmpty = true →
      row.2.getD h none = some 0) := by
  refine ⟨rfl, ?_, ?_, ?_, rfl, ?_, ?_⟩
  · intro row hrow
    rcases List.mem_map.mp hrow with ⟨d, _, rfl⟩
    simp
  · intro row hrow h hh
    rcases List.mem_map.mp hrow with ⟨d, _, rfl⟩
    dsimp only
    exact getD_map_range 24 _ h hh 0
  · intro row hrow h hh hempty
    rcases List.mem_map.mp hrow with ⟨d, _, rfl⟩
    dsimp only at hempty ⊢
    rw [getD_map_range 24 _ h hh 0, hempty]
    rfl
  · intro row hrow
    rcases List.mem_map.mp hrow with ⟨d, _, rfl⟩
    simp
  · intro row hrow h hh hempty
    rcases List.mem_map.mp hrow with ⟨d, _, rfl⟩
    dsimp only at hempty ⊢
    rw [getD_map_range 24 _ h hh none, hempty]
    rfl

/-- C3 witness: concrete one-record inputs for both pivots. -/
theorem C3_pivot_shape_and_fill_witness :
    ([HourRecord.mk "Monday" 0] : List HourRecord) ≠ [] ∧
    ([UsageRecord.mk "Monday" 0 5] : List UsageRecord) ≠ [] ∧
    (theftPivot [HourRecord.mk "Monday" 0]).map Prod.fst = dayOrder := by
  refine ⟨by decide, by decide, ?_⟩
  exact (C3_pivot_shape_and_fill [HourRecord.mk "Monday" 0]
    [UsageRecord.mk "Monday" 0 5] (by decide) (by decide)).1

/-- A per-store row of the `store_scores` frame in
`show_recommendations` (src/components/employee_analytics.py lines
523-527): the mean mobile-usage incident count and mean average
duration for one store. -/
structure StoreUsage where
  store : String
  mobile_usage_incidents : ℚ
  avg_duration_minutes : ℚ
  deriving Repr, DecidableEq

/-- `store_scores['mobile_usage_incidents'].max()` — `none` models the
NaN a pandas max yields on an empty frame (NaN comparisons are false,
so the guard below then skips, exactly as the source does). -/
def maxUsageIncidents (l : List StoreUsage) : Option ℚ :=
  (l.map (fun s => s.mobile_usage_incidents)).max?

/-- `store_scores['avg_duration_minutes'].max()`. -/
def maxUsageDuration (l : List StoreUsage) : Option ℚ :=
  (l.map (fun s => s.avg_duration_minutes)).max?

/-- The per-store compliance score of `show_recommendations`
(src/components/employee_analytics.py lines 531-535): incident and
duration "badness" fractions are inverted and combined 0.6/0.4, scaled
to a percentage. -/
def complianceScore (inc dur maxInc maxDur : ℚ) : ℚ :=
  ((1 - inc / maxInc) * 0.6 + (1 - dur / maxDur) * 0.4) * 100

/-- The guarded compliance-score computation of `show_recommendations`:
`if max_incidents > 0 and max_duration > 0:` produces the score column,
otherwise no compliance scores are produced at all (inside the guard the
source also sorts the frame for display, which does not change any
store's score). -/
def complianceScores (l : List StoreUsage) : Option (List (String × ℚ)) :=
  match maxUsageIncidents l, maxUsageDuration l with
  | some maxInc, some maxDur =>
      if 0 < maxInc ∧ 0 < maxDur then
        some (l.map (fun s =>
          (s.store, complianceScore s.mobile_usage_incidents
            s.avg_duration_minutes maxInc maxDur)))
      else none
  | _, _ => none

/-- Look up one store's compliance score in a produced score list. -/
def scoreOf (res : Option (List (String × ℚ))) (name : String) : Option ℚ :=
  match res with
  | none => none
  | some l => (l.find? (fun p => p.1 == name)).map Prod.snd

/-- The two-store set of the end-to-end scenario: incident counts
[10, 20] and durations [2.0, 4.0]. -/
def twoStoreSet : List StoreUsage :=
  [StoreUsage.mk "A" 10 2, StoreUsage.mk "B" 20 4]

/-- C5: when the maxima over the compared store set are both positive,
every store receives the score
`(0.6·(1 − incidents/max) + 0.4·(1 − duration/max))·100`; and on the
two-store scenario (counts [10, 20], durations [2.0, 4.0]) the store
with count 10 and duration 2.0 scores strictly higher than the other. -/
theorem C5_compliance_formula_and_ranking (l : List StoreUsage)
    (maxInc maxDur : ℚ)
    (hI : maxUsageIncidents l = some maxInc)
    (hD : maxUsageDuration l = some maxDur)
    (hIpos : 0 < maxInc) (hDpos : 0 < maxDur) :
    complianceScores l = some (l.map (fun s =>
      (s.store, (0.6 * (1 - s.mobile_usage_incidents / maxInc) +
        0.4 * (1 - s.avg_duration_minutes / maxDur)) * 100))) ∧
    (∃ x y, scoreOf (complianceScores twoStoreSet) "A" = some x ∧
      scoreOf (complianceScores twoStoreSet) "B" = some y ∧ y < x) := by
  constructor
  · unfold complianceScores
    rw [hI, hD]
    dsimp only
    rw [if_pos ⟨hIpos, hDpos⟩]
    congr 1
    apply List.map_congr_left
    intro s _
    unfold complianceScore
    ring_nf
  · refine ⟨50, 0, ?_, ?_, by norm_num⟩
    · norm_num [scoreOf, complianceScores, twoStoreSet, maxUsageIncidents,
        maxUsageDuration, complianceScore, List.max?, List.foldl, max_def,
        List.find?]
    · norm_num [scoreOf, complianceScores, twoStoreSet, maxUsageIncidents,
        maxUsageDuration, complianceScore, List.max?, List.foldl, max_def,
        List.find?]
      exact ⟨"B", rfl⟩

/-- C5 witness: the scenario store set itself satisfies the maxima
hypotheses. -/
theorem C5_compliance_formula_and_ranking_witness :
    maxUsageIncidents twoStoreSet = some 20 ∧
    maxUsageDuration twoStoreSet = some 4 ∧
    complianceScores twoStoreSet = some (twoStoreSet.map (fun s =>
      (s.store, (0.6 * (1 - s.mobile_usage_incidents / 20) +
        0.4 * (1 - s.avg_duration_minutes / 4)) * 100))) := by
  refine ⟨by decide, by decide, ?_⟩
  exact (C5_compliance_formula_and_ranking twoStoreSet 20 4 (by decide)
    (by decide) (by norm_num) (by norm_num)).1

/-- C6: when the maximum incident count or the maximum duration over
the compared set is 0 (or the set is empty, where pandas yields NaN),
no compliance scores are produced; in particular the all-zero two-store
set short-circuits to no result. -/
theorem C6_compliance_zero_max_short_circuit (l : List StoreUsage)
    (h : maxUsageIncidents l = some 0 ∨ maxUsageDuration l = some 0) :
    complianceScores l = none ∧
    complianceScores [StoreUsage.mk "A" 0 0, StoreUsage.mk "B" 0 0] =
      none := by
  constructor
  · unfold complianceScores
    rcases h with h0 | h0
    · rw [h0]
      cases hD : maxUsageDuration l with
      | none => rfl
      | some d =>
          dsimp only
          rw [if_neg]
          rintro ⟨hlt, -⟩
          exact lt_irrefl 0 hlt
    · rw [h0]
      cases hI : maxUsageIncidents l with
      | none => rfl
      | some i =>
          dsimp only
          rw [if_neg]
          rintro ⟨-, hlt⟩
          exact lt_irrefl 0 hlt
  · decide

/-- C6 witness: the all-zero two-store set has maximum incident count 0. -/
theorem C6_compliance_zero_max_short_circuit_witness :
    maxUsageIncidents [StoreUsage.mk "A" 0 0, StoreUsage.mk "B" 0 0] =
      some 0 ∧
    complianceScores [StoreUsage.mk "A" 0 0, StoreUsage.mk "B" 0 0] =
      none := by
  refine ⟨by decide, ?_⟩
  exact (C6_compliance_zero_max_short_circuit
    [StoreUsage.mk "A" 0 0, StoreUsage.mk "B" 0 0]
    (Or.inl (by decide))).1

/-- Python `int()` truncation toward zero, applied to
`int(members * growth_rate)` in `generate_rewards_data`
(src/data_generator.py). -/
def truncQ (q : ℚ) : ℤ := if q < 0 then ⌈q⌉ else ⌊q⌋

/-- The daily member loop of `generate_rewards_data`
(src/data_generator.py lines 104-132), parameterised by the sequence of
sampled growth rates (the `np.random.normal(...)` draws): each day
`new_members = int(members * growth_rate)`, `members += new_members`,
and the record stores `(total_members, new_members)`.  `members` stays
integral, so `int(members)` is `members` itself. -/
def rewardsSteps (members : ℤ) : List ℚ → List (ℤ × ℤ)
  | [] => []
  | r :: rest =>
      (members + truncQ (members * (r : ℚ)), truncQ (members * (r : ℚ))) ::
        rewardsSteps (members + truncQ (members * (r : ℚ))) rest

lemma rewardsSteps_head (m : ℤ) (rates : List ℚ) :
    ∀ y ∈ (rewardsSteps m rates).head?, y.1 = m + y.2 := by
  cases rates with
  | nil => intro y hy; cases hy
  | cons r rest =>
      intro y hy
      simp only [rewardsSteps, List.head?_cons, Option.mem_def,
        Option.some.injEq] at hy
      rw [← hy]

lemma truncQ_nonneg (q : ℚ) (h : 0 ≤ q) : 0 ≤ truncQ q := by
  unfold truncQ
  rw [if_neg (not_lt.mpr h)]
  exact_mod_cast Int.floor_nonneg.mpr h

lemma rewardsSteps_pos (m : ℤ) (hm : 0 ≤ m) (rates : List ℚ)
    (hr : ∀ r ∈ rates, 0 ≤ r) :
    ∀ p ∈ rewardsSteps m rates, 0 ≤ p.2 ∧ 0 ≤ p.1 := by
  induction rates generalizing m with
  | nil => intro p hp; cases hp
  | cons r rest ih =>
      intro p hp
      have hnm : 0 ≤ truncQ (m * (r : ℚ)) :=
        truncQ_nonneg _ (mul_nonneg (by exact_mod_cast hm)
          (hr r (List.mem_cons_self r rest)))
      rcases List.mem_cons.mp hp with rfl | hp'
      · exact ⟨hnm, by dsimp only; linarith⟩
      · exact ih (m + truncQ (m * (r : ℚ))) (by linarith)
          (fun x hx => hr x (List.mem_cons_of_mem r hx)) p hp'

/-- C7 counterexample: with base membership 1000 and sampled growth
rates [0.005, −0.005] (both within range of the generator's
`np.random.normal(0.005, 0.002)` draw), the second day's record is
`(1000, −5)`: `new_members = −5 < 0` and `total_members` drops from
1005 to 1000, violating both the non-negativity and the monotonicity
parts of the claim. -/
theorem C7_rewards_monotone_counterexample :
    rewardsSteps 1000 [1/200, -1/200] = [(1005, 5), (1000, -5)] ∧
    ¬ (List.Chain' (fun a b : ℤ × ℤ => a.1 ≤ b.1)
        (rewardsSteps 1000 [1/200, -1/200]) ∧
       ∀ p ∈ rewardsSteps 1000 [1/200, -1/200], 0 ≤ p.2) := by
  have hc : ⌈(-(201/40) : ℚ)⌉ = (-5 : ℤ) := by
    rw [Int.ceil_eq_iff]
    norm_num
  have h : rewardsSteps 1000 [1/200, -1/200] = [(1005, 5), (1000, -5)] := by
    norm_num [rewardsSteps, truncQ, hc]
  refine ⟨h, ?_⟩
  rw [h]
  rintro ⟨-, hpos⟩
  have h5 := hpos (1000, -5) (by simp)
  norm_num at h5

/-- C7 (amended): `new_members` always equals the day-over-day delta of
`total_members` — unconditionally, for every base count and every
sampled growth-rate sequence (each record's total is the previous total
plus its `new_members`, the first relative to the base count); and
provided the base count and every sampled growth rate are non-negative,
`total_members` is monotonically non-decreasing and every
`new_members` is ≥ 0 — the generator's normal draws can be negative, in
which case monotonicity fails. -/
theorem C7_rewards_delta_and_monotone (base : ℤ) (rates : List ℚ) :
    List.Chain' (fun a b : ℤ × ℤ => b.1 = a.1 + b.2)
      (rewardsSteps base rates) ∧
    (∀ y ∈ (rewardsSteps base rates).head?, y.1 = base + y.2) ∧
    (0 ≤ base → (∀ r ∈ rates, 0 ≤ r) →
      List.Chain' (fun a b : ℤ × ℤ => a.1 ≤ b.1) (rewardsSteps base rates) ∧
      (∀ p ∈ rewardsSteps base rates, 0 ≤ p.2)) := by
  refine ⟨?_, rewardsSteps_head base rates, ?_⟩
  · induction rates generalizing base with
    | nil => exact List.chain'_nil
    | cons r rest ih =>
        rw [rewardsSteps, List.chain'_cons']
        exact ⟨fun y hy => by
          rw [rewardsSteps_head _ rest y hy], ih _⟩
  · intro hb hr
    constructor
    · induction rates generalizing base with
      | nil => exact List.chain'_nil
      | cons r rest ih =>
          rw [rewardsSteps, List.chain'_cons']
          constructor
          · intro y hy
            have hy2 := (rewardsSteps_pos _
              (by
                have hnm : 0 ≤ truncQ (base * (r : ℚ)) :=
                  truncQ_nonneg _ (mul_nonneg (by exact_mod_cast hb)
                    (hr r (List.mem_cons_self r rest)))
                linarith)
              rest (fun x hx => hr x (List.mem_cons_of_mem r hx)) y
              (List.mem_of_mem_head? hy)).1
            have := rewardsSteps_head _ rest y hy
            dsimp only
            linarith
          · have hnm : 0 ≤ truncQ (base * (r : ℚ)) :=
              truncQ_nonneg _ (mul_nonneg (by exact_mod_cast hb)
                (hr r (List.mem_cons_self r rest)))
            exact ih _ (by linarith)
              (fun x hx => hr x (List.mem_cons_of_mem r hx))
    · intro p hp
      exact (rewardsSteps_pos base hb rates hr p hp).1

/-- C7 witness: the delta chain holds at base 1000 even for the mixed
rate sequence [0.005, −0.005] containing a negative draw, and the
conditional part applies at the non-negative rate sequence [0.005]. -/
theorem C7_rewards_delta_and_monotone_witness :
    List.Chain' (fun a b : ℤ × ℤ => b.1 = a.1 + b.2)
      (rewardsSteps 1000 [(1/200 : ℚ), -(1/200 : ℚ)]) ∧
    (0 : ℤ) ≤ 1000 ∧ (∀ r ∈ [(1/200 : ℚ)], 0 ≤ r) ∧
    (∀ p ∈ rewardsSteps 1000 [(1/200 : ℚ)], 0 ≤ p.2) := by
  refine ⟨?_, by norm_num, by norm_num, ?_⟩
  · exact (C7_rewards_delta_and_monotone 1000
      [(1/200 : ℚ), -(1/200 : ℚ)]).1
  · exact ((C7_rewards_delta_and_monotone 1000 [(1/200 : ℚ)]).2.2
      (by norm_num) (by norm_num)).2

/-- Mean of a column, as used by `pandas` in `Series.corr`. -/
def meanQ (xs : List ℚ) : ℚ := xs.sum / xs.length

/-- Centered cross-product sum of an aligned two-column frame — the
numerator of the Pearson coefficient that
`correlation_data['visitors'].corr(correlation_data['thefts'])`
computes in `show_combined_analysis`
(src/components/traffic_analytics.py lines 587-596); the sample-size
divisors of covariance and standard deviation cancel in the
coefficient, leaving centered sums. -/
def covQ (ps : List (ℚ × ℚ)) : ℚ :=
  (ps.map (fun p => (p.1 - meanQ (ps.map Prod.fst)) *
    (p.2 - meanQ (ps.map Prod.snd)))).sum

/-- Centered sum of squares of the first column. -/
def varFst (ps : List (ℚ × ℚ)) : ℚ :=
  (ps.map (fun p => (p.1 - meanQ (ps.map Prod.fst)) ^ 2)).sum

/-- Centered sum of squares of the second column. -/
def varSnd (ps : List (ℚ × ℚ)) : ℚ :=
  (ps.map (fun p => (p.2 - meanQ (ps.map Prod.snd)) ^ 2)).sum

/-- The Pearson correlation coefficient of the aligned series:
`covQ / (√varFst · √varSnd)`, the exact-arithmetic counterpart of the
float the source computes. -/
noncomputable def pearsonR (ps : List (ℚ × ℚ)) : ℝ :=
  (covQ ps : ℝ) / (Real.sqrt (varFst ps) * Real.sqrt (varSnd ps))

/-- The narrative classification of `show_combined_analysis`
(src/components/traffic_analytics.py lines 590-596), keyed on the
(rounded) correlation value: `> 0.3` positive, `< -0.3` negative,
otherwise no strong correlation. -/
def correlationNarrative (c : ℚ) : String :=
  if c > 0.3 then "positive correlation"
  else if c < -0.3 then "negative correlation"
  else "no strong correlation"

lemma sum_map_eq_finsum {α : Type} (l : List α) (f : α → ℚ) :
    (l.map f).sum = ∑ i : Fin l.length, f (l.get i) := by
  conv_lhs => rw [← List.ofFn_get l]
  rw [List.map_ofFn, List.sum_ofFn]
  rfl

/-- Cauchy–Schwarz for two-column lists. -/
lemma listCS (l : List (ℚ × ℚ)) :
    (l.map (fun p => p.1 * p.2)).sum ^ 2 ≤
      (l.map (fun p => p.1 ^ 2)).sum * (l.map (fun p => p.2 ^ 2)).sum := by
  rw [sum_map_eq_finsum l (fun p => p.1 * p.2),
      sum_map_eq_finsum l (fun p => p.1 ^ 2),
      sum_map_eq_finsum l (fun p => p.2 ^ 2)]
  exact Finset.sum_mul_sq_le_sq_mul_sq Finset.univ
    (fun i => (l.get i).1) (fun i => (l.get i).2)

lemma cov_sq_le_var_mul_var (ps : List (ℚ × ℚ)) :
    covQ ps ^ 2 ≤ varFst ps * varSnd ps := by
  have h := listCS (ps.map (fun p =>
    (p.1 - meanQ (ps.map Prod.fst), p.2 - meanQ (ps.map Prod.snd))))
  rw [List.map_map, List.map_map, List.map_map] at h
  exact h

lemma map_swap_fst (ps : List (ℚ × ℚ)) :
    (ps.map Prod.swap).map Prod.fst = ps.map Prod.snd := by
  rw [List.map_map]
  rfl

lemma map_swap_snd (ps : List (ℚ × ℚ)) :
    (ps.map Prod.swap).map Prod.snd = ps.map Prod.fst := by
  rw [List.map_map]
  rfl

lemma covQ_swap (ps : List (ℚ × ℚ)) : covQ (ps.map Prod.swap) = covQ ps := by
  unfold covQ
  rw [map_swap_fst, map_swap_snd, List.map_map]
  apply congrArg List.sum
  apply List.map_congr_left
  intro p _
  show (p.2 - meanQ (ps.map Prod.snd)) * (p.1 - meanQ (ps.map Prod.fst)) = _
  ring

lemma varFst_swap (ps : List (ℚ × ℚ)) :
    varFst (ps.map Prod.swap) = varSnd ps := by
  unfold varFst varSnd
  rw [map_swap_fst, List.map_map]
  rfl

lemma varSnd_swap (ps : List (ℚ × ℚ)) :
    varSnd (ps.map Prod.swap) = varFst ps := by
  unfold varFst varSnd
  rw [map_swap_snd, List.map_map]
  rfl

/-- C8: the Pearson coefficient is symmetric in its two series; it lies
in [-1, 1] whenever both series are non-constant (positive centered
variation); and the narrative is "positive correlation" exactly for
values > 0.3, "negative correlation" exactly for values < -0.3, and
"no strong correlation" otherwise. -/
theorem C8_correlation_symmetric_bounded_classified (ps : List (ℚ × ℚ))
    (h1 : 0 < varFst ps) (h2 : 0 < varSnd ps) :
    pearsonR (ps.map Prod.swap) = pearsonR ps ∧
    (-1 ≤ pearsonR ps ∧ pearsonR ps ≤ 1) ∧
    (∀ c : ℚ,
      (correlationNarrative c = "positive correlation" ↔ 0.3 < c) ∧
      (correlationNarrative c = "negative correlation" ↔ c < -0.3) ∧
      (correlationNarrative c = "no strong correlation" ↔
        (¬ 0.3 < c ∧ ¬ c < -0.3))) := by
  refine ⟨?_, ?_, ?_⟩
  · unfold pearsonR
    rw [covQ_swap, varFst_swap, varSnd_swap, mul_comm]
  · have ha : (0 : ℝ) < (varFst ps : ℝ) := by exact_mod_cast h1
    have hb : (0 : ℝ) < (varSnd ps : ℝ) := by exact_mod_cast h2
    have hcs : ((covQ ps : ℝ)) ^ 2 ≤ (varFst ps : ℝ) * (varSnd ps : ℝ) := by
      exact_mod_cast cov_sq_le_var_mul_var ps
    have habs : |(covQ ps : ℝ)| ≤
        Real.sqrt ((varFst ps : ℝ) * (varSnd ps : ℝ)) :=
      Real.abs_le_sqrt hcs
    rw [Real.sqrt_mul ha.le] at habs
    have hden : 0 < Real.sqrt (varFst ps : ℝ) * Real.sqrt (varSnd ps : ℝ) :=
      mul_pos (Real.sqrt_pos.mpr ha) (Real.sqrt_pos.mpr hb)
    have habs2 : |pearsonR ps| ≤ 1 := by
      unfold pearsonR
      rw [abs_div, abs_of_pos hden]
      exact (div_le_one hden).mpr habs
    exact abs_le.mp habs2
  · intro c
    unfold correlationNarrative
    refine ⟨?_, ?_, ?_⟩ <;> split_ifs with ha hb <;>
      simp_all <;> first | linarith | decide

/-- C8 witness: the two-point aligned series [(0,0), (1,1)] has
positive centered variation in both columns. -/
theorem C8_correlation_symmetric_bounded_classified_witness :
    0 < varFst [((0 : ℚ), (0 : ℚ)), (1, 1)] ∧
    0 < varSnd [((0 : ℚ), (0 : ℚ)), (1, 1)] ∧
    (-1 ≤ pearsonR [((0 : ℚ), (0 : ℚ)), (1, 1)] ∧
      pearsonR [((0 : ℚ), (0 : ℚ)), (1, 1)] ≤ 1) := by
  have h1 : 0 < varFst [((0 : ℚ), (0 : ℚ)), (1, 1)] := by
    norm_num [varFst, meanQ]
  have h2 : 0 < varSnd [((0 : ℚ), (0 : ℚ)), (1, 1)] := by
    norm_num [varSnd, meanQ]
  exact ⟨h1, h2,
    (C8_correlation_symmetric_bounded_classified _ h1 h2).2.1⟩

/-- A TheftIncident row as persisted by the REST API (src/api.py,
src/database.py); the derived `day_of_week`/`hour` columns are omitted
as no claim touches them. -/
structure TheftIncident where
  id : ℕ
  store_id : ℤ
  timestamp : ℤ
  severity : String
  value : ℚ
  resolved : Bool
  deriving Repr, DecidableEq

/-- The API operations that mutate theft incidents (src/api.py):
`POST /api/theft-incidents` (create, with the payload's `resolved`
defaulting to false) and `PUT /api/theft-incidents/{id}/resolve`.
No other endpoint writes a theft incident. -/
inductive TheftApiOp where
  | create (store_id : ℤ) (timestamp : ℤ) (severity : String) (value : ℚ)
      (resolved : Bool)
  | resolve (id : ℕ)

/-- Fresh autoincrement id for a created incident. -/
def nextIncidentId (db : List TheftIncident) : ℕ :=
  (db.map (fun i => i.id)).foldr max 0 + 1

/-- One API operation on the incident table: create appends a fresh
row; resolve sets `resolved = True` on the matching row and
404s (leaving the table unchanged) when the id is absent. -/
def applyTheftOp (db : List TheftIncident) : TheftApiOp → List TheftIncident
  | .create sid ts sev v r => db ++ [⟨nextIncidentId db, sid, ts, sev, v, r⟩]
  | .resolve i => db.map (fun inc =>
      if inc.id = i then { inc with resolved := true } else inc)

/-- A whole API session: the operations applied in order. -/
def applyTheftOps (db : List TheftIncident) (ops : List TheftApiOp) :
    List TheftIncident :=
  ops.foldl applyTheftOp db

/-- `db.query(TheftIncident).filter(TheftIncident.id == i).first()`. -/
def findIncident (db : List TheftIncident) (i : ℕ) : Option TheftIncident :=
  db.find? (fun inc => inc.id == i)

lemma findIncident_resolveMap (db : List TheftIncident) (i j : ℕ) :
    findIncident (db.map (fun inc =>
      if inc.id = j then { inc with resolved := true } else inc)) i =
    (findIncident db i).map (fun inc =>
      if inc.id = j then { inc with resolved := true } else inc) := by
  induction db with
  | nil => rfl
  | cons a t ih =>
      unfold findIncident at *
      rw [List.map_cons, List.find?_cons, List.find?_cons]
      have hid : (if a.id = j then { a with resolved := true } else a).id
          = a.id := by
        split <;> rfl
      rw [hid]
      cases h : (a.id == i) with
      | true => rfl
      | false => exact ih

lemma resolved_preserved_step (db : List TheftIncident) (op : TheftApiOp)
    (i : ℕ) (inc : TheftIncident) (h : findIncident db i = some inc)
    (hres : inc.resolved = true) :
    ∃ inc2, findIncident (applyTheftOp db op) i = some inc2 ∧
      inc2.resolved = true := by
  cases op with
  | create sid ts sev v r =>
      refine ⟨inc, ?_, hres⟩
      unfold applyTheftOp findIncident
      rw [List.find?_append]
      unfold findIncident at h
      rw [h]
      rfl
  | resolve j =>
      unfold applyTheftOp
      rw [findIncident_resolveMap db i j, h]
      refine ⟨_, rfl, ?_⟩
      dsimp only
      split
      · rfl
      · exact hres

/-- C9: across any sequence of API operations, a resolved theft
incident stays present and resolved (`resolved` never reverts to
false), and the resolve endpoint itself sets `resolved` to true on the
targeted incident. -/
theorem C9_resolved_monotone (db : List TheftIncident)
    (ops : List TheftApiOp) (i : ℕ) (inc : TheftIncident)
    (h : findIncident db i = some inc) (hres : inc.resolved = true) :
    (∃ inc2, findIncident (applyTheftOps db ops) i = some inc2 ∧
      inc2.resolved = true) ∧
    (∀ (db2 : List TheftIncident) (j : ℕ) (inc3 : TheftIncident),
      findIncident db2 j = some inc3 →
      findIncident (applyTheftOp db2 (TheftApiOp.resolve j)) j =
        some { inc3 with resolved := true }) := by
  constructor
  · induction ops generalizing db inc with
    | nil => exact ⟨inc, h, hres⟩
    | cons op rest ih =>
        rcases resolved_preserved_step db op i inc h hres with
          ⟨inc2, h2, hres2⟩
        exact ih (applyTheftOp db op) inc2 h2 hres2
  · intro db2 j inc3 h3
    unfold applyTheftOp
    rw [findIncident_resolveMap db2 j j, h3]
    have : inc3.id = j := by
      unfold findIncident at h3
      have h4 := List.find?_some h3
      simpa using h4
    simp [this]

/-- C9 witness: a one-incident table already resolved, run through a
create and a resolve of another id. -/
theorem C9_resolved_monotone_witness :
    findIncident [TheftIncident.mk 1 5 0 "Low" 10 true] 1 =
      some (TheftIncident.mk 1 5 0 "Low" 10 true) ∧
    (∃ inc2, findIncident (applyTheftOps
      [TheftIncident.mk 1 5 0 "Low" 10 true]
      [TheftApiOp.create 6 0 "High" 20 false, TheftApiOp.resolve 2]) 1 =
        some inc2 ∧ inc2.resolved = true) := by
  refine ⟨by decide, ?_⟩
  exact (C9_resolved_monotone [TheftIncident.mk 1 5 0 "Low" 10 true]
    [TheftApiOp.create 6 0 "High" 20 false, TheftApiOp.resolve 2] 1
    (TheftIncident.mk 1 5 0 "Low" 10 true) (by decide) rfl).1

/-- `GET /api/theft-incidents` (src/api.py lines 394-430): each filter
is applied only when its parameter is "truthy" in the Python sense —
`if store_id:` skips both `None` and `0`, `if severity:` skips `None`
and the empty string, `if resolved is not None:` applies for any
boolean — followed by `offset(skip).limit(limit)`. -/
def getTheftIncidents (db : List TheftIncident) (store_id : Option ℤ)
    (start_date end_date : Option ℤ) (severity : Option String)
    (resolvedQ : Option Bool) (skip limit : ℕ) : List TheftIncident :=
  let q := db
  let q : List TheftIncident := match store_id with
    | some s => if s = 0 then q else q.filter (fun inc => inc.store_id == s)
    | none => q
  let q : List TheftIncident := match start_date with
    | some d => q.filter (fun inc => decide (d ≤ inc.timestamp))
    | none => q
  let q : List TheftIncident := match end_date with
    | some d => q.filter (fun inc => decide (inc.timestamp ≤ d))
    | none => q
  let q : List TheftIncident := match severity with
    | some sev =>
        if sev = "" then q else q.filter (fun inc => inc.severity == sev)
    | none => q
  let q : List TheftIncident := match resolvedQ with
    | some r => q.filter (fun inc => inc.resolved == r)
    | none => q
  (q.drop skip).take limit

/-- A RewardsData row as queried by `GET /api/rewards` (src/api.py). -/
structure RewardsRow where
  store_id : ℤ
  date : ℤ
  total_members : ℤ
  deriving Repr, DecidableEq

/-- `GET /api/rewards` (src/api.py lines 477-505): same truthy
`if store_id:` guard, date-range filters, then offset/limit. -/
def getRewardsData (db : List RewardsRow) (store_id : Option ℤ)
    (start_date end_date : Option ℤ) (skip limit : ℕ) : List RewardsRow :=
  let q := db
  let q : List RewardsRow := match store_id with
    | some s => if s = 0 then q else q.filter (fun r => r.store_id == s)
    | none => q
  let q : List RewardsRow := match start_date with
    | some d => q.filter (fun r => decide (d ≤ r.date))
    | none => q
  let q : List RewardsRow := match end_date with
    | some d => q.filter (fun r => decide (r.date ≤ d))
    | none => q
  (q.drop skip).take limit

/-- C10: requesting `store_id = 0` is the same as omitting the store
filter on both list endpoints (`if store_id:` is false for 0), so a
query for the nonexistent store 0 returns records of all stores — on a
two-store table the whole table — instead of an empty list. -/
theorem C10_store_id_zero_is_no_filter :
    (∀ (db : List TheftIncident) (sd ed : Option ℤ) (sev : Option String)
      (res : Option Bool) (skip limit : ℕ),
      getTheftIncidents db (some 0) sd ed sev res skip limit =
        getTheftIncidents db none sd ed sev res skip limit) ∧
    (∀ (db : List RewardsRow) (sd ed : Option ℤ) (skip limit : ℕ),
      getRewardsData db (some 0) sd ed skip limit =
        getRewardsData db none sd ed skip limit) ∧
    getTheftIncidents
      [TheftIncident.mk 1 1 0 "Low" 10 false,
       TheftIncident.mk 2 2 0 "High" 20 false] (some 0)
      none none none none 0 100 =
      [TheftIncident.mk 1 1 0 "Low" 10 false,
       TheftIncident.mk 2 2 0 "High" 20 false] := by
  refine ⟨fun db sd ed sev res skip limit => rfl,
    fun db sd ed skip limit => rfl, rfl⟩
